import Mathlib

/-!
Verification of `tibber/response_handler.py`: a classifier that turns a raw
HTTP/GraphQL response (status code, content type, body) into either a parsed
payload or one of four typed failures.

The embedding is shallow: decoded JSON bodies are modelled by the inductive
type `Json` (objects as association lists, numeric literals as integers),
Python dictionary access by `Json.getD`, and the exception-raising control
flow of `extract_response_data` by the sum type `Outcome`.
-/

set_option maxHeartbeats 1000000

/-- A decoded JSON value: the result of `response.json()`.  Objects are
association lists of fields; numeric literals are modelled as integers. -/
inductive Json where
  | null : Json
  | bool (b : Bool) : Json
  | num (n : Int) : Json
  | str (s : String) : Json
  | arr (elems : List Json) : Json
  | obj (fields : List (String × Json)) : Json
deriving Repr

mutual

/-- Python `repr` of a decoded value, used when a value is interpolated
inside another value's rendering. -/
def Json.pyRepr : Json → String
  | .null => "None"
  | .bool true => "True"
  | .bool false => "False"
  | .num n => toString n
  | .str s => "\x27" ++ s ++ "\x27"
  | .arr xs => "[" ++ Json.pyReprArr xs ++ "]"
  | .obj fs => "\x7b" ++ Json.pyReprObj fs ++ "\x7d"

/-- Comma-separated `repr` of the elements of a decoded list. -/
def Json.pyReprArr : List Json → String
  | [] => ""
  | [x] => Json.pyRepr x
  | x :: y :: xs => Json.pyRepr x ++ ", " ++ Json.pyReprArr (y :: xs)

/-- Comma-separated `repr` of the entries of a decoded mapping. -/
def Json.pyReprObj : List (String × Json) → String
  | [] => ""
  | [(k, v)] => "\x27" ++ k ++ "\x27: " ++ Json.pyRepr v
  | (k, v) :: p :: ps =>
      "\x27" ++ k ++ "\x27: " ++ Json.pyRepr v ++ ", " ++ Json.pyReprObj (p :: ps)

end

/-- Python `str` of a decoded value, as interpolated by an f-string:
a string renders as itself, every other value as its `repr`. -/
def Json.pyStr : Json → String
  | .str s => s
  | j => j.pyRepr

/-- Python `d.get(key, default)` on a decoded mapping: the value stored under
the first matching key, or the default when the key is absent.  The source's
type annotations (`dict[str, Any]`) restrict receivers to mappings; on any
non-mapping value Python would raise `AttributeError`, a point outside the
annotated domain, where the model returns the default. -/
def Json.getD : Json → String → Json → Json
  | .obj fields, key, dflt =>
      match fields.lookup key with
      | some v => v
      | none => dflt
  | _, _, dflt => dflt

/-- Python `pat.isPrefixOf s`-style check used to implement substring search:
true when the pattern is an initial segment of the character list. -/
def charsHavePrefix : List Char → List Char → Bool
  | [], _ => true
  | _ :: _, [] => false
  | p :: ps, c :: cs => p == c && charsHavePrefix ps cs

/-- Python `pat in s` on strings: true when `pat` occurs as a contiguous
substring of `s`. -/
def strIn (pat s : String) : Bool :=
  go s.toList pat.toList
where
  go : List Char → List Char → Bool
    | haystack, pat =>
      match haystack with
      | [] => pat.isEmpty
      | _ :: t => charsHavePrefix pat haystack || go t pat

/-- Python `value == "lit"` for a decoded value and a string literal:
true exactly when the value is a string equal to the literal. -/
def Json.eqStr : Json → String → Bool
  | .str s, t => s == t
  | _, _ => false

/-- Python `"pat" in value` as used on an extracted message.  The source's
annotations make the message a `str`; on a non-string Python would raise
`TypeError`, a point outside the annotated domain, where the model is false. -/
def Json.containsSub : Json → String → Bool
  | .str s, pat => strIn pat s
  | _, _ => false

/-- Modelled from the spec: `const.py` (sentinel `API_ERR_CODE_UNKNOWN`) is not
among the sources; the spec calls it `UNKNOWN_CODE`, the default extension
code when absent. -/
def API_ERR_CODE_UNKNOWN : String := "UNKNOWN"

/-- Modelled from the spec: `const.py` (sentinel `API_ERR_CODE_UNAUTH`) is not
among the sources; the spec calls it `UNAUTHORIZED_CODE`, the fatal-path code
that remaps to `InvalidLogin`, distinct from `UNKNOWN_CODE` and from the
literal `"UNAUTHENTICATED"`. -/
def API_ERR_CODE_UNAUTH : String := "UNAUTHORIZED"

/-- Modelled from the spec: `const.py` (`HTTP_CODES_RETRIABLE`) is not among
the sources; the spec's policy table lists 429, 502, 503, 504 as the
retriable set. -/
def HTTP_CODES_RETRIABLE : List Nat := [429, 502, 503, 504]

/-- Modelled from the spec: `const.py` (`HTTP_CODES_FATAL`) is not among the
sources; the spec's policy table lists 400, 401, 403, 404 as the fatal set. -/
def HTTP_CODES_FATAL : List Nat := [400, 401, 403, 404]

/-- Python's `http.HTTPStatus.OK`. -/
def HTTPStatusOK : Nat := 200

/-- The `errors` field of a GraphQL error entry list together with the default
message: `extract_error_details(errors, default_message)`.  Empty list gives
the unknown-code sentinel and the default; otherwise only the first entry is
consulted: its `extensions.code` (default unknown sentinel) and its `message`
(default the supplied message). -/
def extract_error_details (errors : List Json) (default_message : String) :
    Json × Json :=
  match errors with
  | [] => (Json.str API_ERR_CODE_UNKNOWN, Json.str default_message)
  | error :: _ =>
      let extensions : Json := error.getD "extensions" (Json.obj [])
      (extensions.getD "code" (Json.str API_ERR_CODE_UNKNOWN),
       error.getD "message" (Json.str default_message))

/-- The classified outcome of one response: the successfully decoded payload,
or one of the four exceptions raised by `extract_response_data`.  Message and
code fields hold the decoded values the source passes to the exception
constructors. -/
inductive Outcome where
  | success (payload : Json) : Outcome
  | invalidLogin (status : Nat) (message code : Json) : Outcome
  | notForDemoUser (status : Nat) (message code : Json) : Outcome
  | retryable (status : Nat) (message code : Json) : Outcome
  | fatal (status : Nat) (message code : Json) : Outcome
deriving Repr

/-- The status code carried by a failure outcome (`none` for success). -/
def Outcome.statusOf : Outcome → Option Nat
  | .success _ => none
  | .invalidLogin s _ _ => some s
  | .notForDemoUser s _ _ => some s
  | .retryable s _ _ => some s
  | .fatal s _ _ => some s

/-- The part of an `aiohttp.ClientResponse` the handler reads: the HTTP
status, the content type, the result of decoding the body as JSON
(`Except.error` models a `JSONDecodeError` carrying its message), and the
string `str(response.content)` used as a default error message. -/
structure ClientResponse where
  status : Nat
  content_type : String
  json : Except String Json
  content : String

/-- The precached `errors` list `result.get("errors", [])` of the decoded
mapping.  The source annotates it `list[dict[str, Any]]`; an absent key gives
the empty list, and a non-array value under the key lies outside the
annotated domain (Python would fail on first use) and is modelled as empty. -/
def responseErrors (fields : List (String × Json)) : List Json :=
  match fields.lookup "errors" with
  | some (Json.arr errs) => errs
  | some _ => []
  | none => []

/-- The tail of `extract_response_data` (source lines 89-107), reached both
by non-200 statuses and by 200 responses whose errors match none of the
OK-path special cases: the retriable-set check, then the fatal-set check,
then the final unhandled-status fallback. -/
def statusCodeBranches (status : Nat) (content : String) (errors : List Json) :
    Outcome :=
  if status ∈ HTTP_CODES_RETRIABLE then
    let (error_code, error_message) := extract_error_details errors content
    Outcome.retryable status error_message error_code
  else if status ∈ HTTP_CODES_FATAL then
    let (error_code, error_message) := extract_error_details errors "request failed"
    if error_code.eqStr API_ERR_CODE_UNAUTH then
      Outcome.invalidLogin status error_message error_code
    else
      Outcome.fatal status error_message error_code
  else
    let (error_code, error_message) := extract_error_details errors "N/A"
    Outcome.fatal status
      (Json.str ("Unhandled error: " ++ error_message.pyStr))
      error_code

/-- The classifier `extract_response_data(response)`: content-type gate, JSON
parse gate, mapping-shape gate, then the status-code decision tree, with the
200 path consulting the embedded `errors` array first. -/
def extract_response_data (response : ClientResponse) : Outcome :=
  if response.content_type ≠ "application/json" then
    Outcome.fatal response.status
      (Json.str ("Unexpected content type: " ++ response.content_type))
      (Json.str API_ERR_CODE_UNKNOWN)
  else
    match response.json with
    | Except.error err =>
        Outcome.fatal response.status
          (Json.str ("Failed to parse response: " ++ err))
          (Json.str API_ERR_CODE_UNKNOWN)
    | Except.ok result =>
        match result with
        | Json.obj fields =>
            let errors : List Json := responseErrors fields
            if response.status = HTTPStatusOK then
              if errors.isEmpty then
                Outcome.success (Json.obj fields)
              else
                let (error_code, error_message) :=
                  extract_error_details errors response.content
                if error_code.eqStr "UNAUTHENTICATED" then
                  Outcome.invalidLogin response.status error_message error_code
                else if error_code.eqStr "INTERNAL_SERVER_ERROR"
                    && error_message.containsSub "demo user" then
                  Outcome.notForDemoUser response.status error_message error_code
                else
                  statusCodeBranches response.status response.content errors
            else
              statusCodeBranches response.status response.content errors
        | result =>
            Outcome.fatal response.status
              (Json.str ("Unexpected response: " ++ result.pyStr))
              (Json.str API_ERR_CODE_UNKNOWN)

theorem string_append_ne_of_incomparable (p q : String)
    (hp : ¬ p.data <+: q.data) (hq : ¬ q.data <+: p.data) (a b : String) :
    p ++ a ≠ q ++ b := by
  intro h
  have hd : (p ++ a).data = (q ++ b).data := congrArg String.data h
  rw [String.data_append, String.data_append] at hd
  have h1 : p.data <+: q.data ++ b.data := hd ▸ List.prefix_append p.data a.data
  rcases List.prefix_or_prefix_of_prefix h1 (List.prefix_append q.data b.data) with h2 | h2
  · exact hp h2
  · exact hq h2

theorem statusCodeBranches_retriable (status : Nat) (content : String)
    (errors : List Json) (h : status ∈ HTTP_CODES_RETRIABLE) :
    statusCodeBranches status content errors =
      Outcome.retryable status
        (extract_error_details errors content).2
        (extract_error_details errors content).1 := by
  unfold statusCodeBranches
  rw [if_pos h]

theorem statusCodeBranches_fatal (status : Nat) (content : String)
    (errors : List Json) (h1 : status ∉ HTTP_CODES_RETRIABLE)
    (h2 : status ∈ HTTP_CODES_FATAL) :
    statusCodeBranches status content errors =
      (if (extract_error_details errors "request failed").1.eqStr API_ERR_CODE_UNAUTH then
        Outcome.invalidLogin status
          (extract_error_details errors "request failed").2
          (extract_error_details errors "request failed").1
      else
        Outcome.fatal status
          (extract_error_details errors "request failed").2
          (extract_error_details errors "request failed").1) := by
  unfold statusCodeBranches
  rw [if_neg h1, if_pos h2]

theorem statusCodeBranches_unhandled (status : Nat) (content : String)
    (errors : List Json) (h1 : status ∉ HTTP_CODES_RETRIABLE)
    (h2 : status ∉ HTTP_CODES_FATAL) :
    statusCodeBranches status content errors =
      Outcome.fatal status
        (Json.str ("Unhandled error: " ++ (extract_error_details errors "N/A").2.pyStr))
        (extract_error_details errors "N/A").1 := by
  unfold statusCodeBranches
  rw [if_neg h1, if_neg h2]

theorem statusCodeBranches_ne_notForDemoUser (status : Nat) (content : String)
    (errors : List Json) (s : Nat) (m c : Json) :
    statusCodeBranches status content errors ≠ Outcome.notForDemoUser s m c := by
  unfold statusCodeBranches
  rcases h1 : extract_error_details errors content with ⟨c1, m1⟩
  rcases h2 : extract_error_details errors "request failed" with ⟨c2, m2⟩
  rcases h3 : extract_error_details errors "N/A" with ⟨c3, m3⟩
  simp only [h1, h2, h3]
  split_ifs <;> exact fun h => Outcome.noConfusion h

theorem statusCodeBranches_statusOf (status : Nat) (content : String)
    (errors : List Json) :
    (statusCodeBranches status content errors).statusOf = some status := by
  unfold statusCodeBranches
  rcases h1 : extract_error_details errors content with ⟨c1, m1⟩
  rcases h2 : extract_error_details errors "request failed" with ⟨c2, m2⟩
  rcases h3 : extract_error_details errors "N/A" with ⟨c3, m3⟩
  simp only [h1, h2, h3]
  split_ifs <;> rfl

theorem extract_ok_obj (st : Nat) (co : String) (fields : List (String × Json)) :
    extract_response_data ⟨st, "application/json", Except.ok (Json.obj fields), co⟩ =
      (if st = HTTPStatusOK then
        (if (responseErrors fields).isEmpty then
          Outcome.success (Json.obj fields)
        else
          (if (extract_error_details (responseErrors fields) co).1.eqStr "UNAUTHENTICATED" then
            Outcome.invalidLogin st
              (extract_error_details (responseErrors fields) co).2
              (extract_error_details (responseErrors fields) co).1
          else if (extract_error_details (responseErrors fields) co).1.eqStr "INTERNAL_SERVER_ERROR"
              && (extract_error_details (responseErrors fields) co).2.containsSub "demo user" then
            Outcome.notForDemoUser st
              (extract_error_details (responseErrors fields) co).2
              (extract_error_details (responseErrors fields) co).1
          else
            statusCodeBranches st co (responseErrors fields)))
      else statusCodeBranches st co (responseErrors fields)) := by
  unfold extract_response_data
  rw [if_neg (by simp)]

example :
    extract_response_data
      ⟨401, "application/json", Except.ok (Json.obj []), "body"⟩ =
    Outcome.fatal 401 (Json.str "request failed") (Json.str API_ERR_CODE_UNKNOWN) := by
  rfl

example :
    extract_response_data
      ⟨200, "application/json",
        Except.ok (Json.obj [("data", Json.obj [("x", Json.num 1)])]), "body"⟩ =
    Outcome.success (Json.obj [("data", Json.obj [("x", Json.num 1)])]) := by
  rfl

example :
    extract_response_data
      ⟨418, "application/json", Except.ok (Json.obj []), "body"⟩ =
    Outcome.fatal 418 (Json.str "Unhandled error: N/A") (Json.str API_ERR_CODE_UNKNOWN) := by
  rfl

example :
    extract_response_data
      ⟨429, "application/json",
        Except.ok (Json.obj [("errors",
          Json.arr [Json.obj [("message", Json.str "rate limited")]])]), "body"⟩ =
    Outcome.retryable 429 (Json.str "rate limited") (Json.str API_ERR_CODE_UNKNOWN) := by
  rfl

example :
    extract_response_data
      ⟨200, "application/json",
        Except.ok (Json.obj [("errors",
          Json.arr [Json.obj [("message", Json.str "no auth"),
            ("extensions", Json.obj [("code", Json.str "UNAUTHENTICATED")])]])]),
        "body"⟩ =
    Outcome.invalidLogin 200 (Json.str "no auth") (Json.str "UNAUTHENTICATED") := by
  rfl

example : strIn "demo user" "not available for demo user x" = true := by rfl
example : strIn "demo user" "Demo User" = false := by rfl

/-- C4: `extract_error_details` on the empty list returns the unknown-code
sentinel with the default message; on a non-empty list it inspects only the
first entry, returning its `extensions.code` when present (else the unknown
sentinel) and its `message` when present (else the default); later entries
never affect the result, and the function is total. -/
theorem extract_error_details_first_entry_only :
    (∀ d : String, extract_error_details [] d =
      (Json.str API_ERR_CODE_UNKNOWN, Json.str d)) ∧
    (∀ (e : Json) (rest : List Json) (d : String),
      extract_error_details (e :: rest) d = extract_error_details [e] d) ∧
    (∀ (efields : List (String × Json)) (rest : List Json) (d : String) (m : Json),
      efields.lookup "message" = some m →
      (extract_error_details (Json.obj efields :: rest) d).2 = m) ∧
    (∀ (efields : List (String × Json)) (rest : List Json) (d : String),
      efields.lookup "message" = none →
      (extract_error_details (Json.obj efields :: rest) d).2 = Json.str d) ∧
    (∀ (efields exts : List (String × Json)) (rest : List Json) (d : String) (c : Json),
      efields.lookup "extensions" = some (Json.obj exts) →
      exts.lookup "code" = some c →
      (extract_error_details (Json.obj efields :: rest) d).1 = c) ∧
    (∀ (efields exts : List (String × Json)) (rest : List Json) (d : String),
      efields.lookup "extensions" = some (Json.obj exts) →
      exts.lookup "code" = none →
      (extract_error_details (Json.obj efields :: rest) d).1 =
        Json.str API_ERR_CODE_UNKNOWN) ∧
    (∀ (efields : List (String × Json)) (rest : List Json) (d : String),
      efields.lookup "extensions" = none →
      (extract_error_details (Json.obj efields :: rest) d).1 =
        Json.str API_ERR_CODE_UNKNOWN) := by
  refine ⟨fun d => rfl, fun e rest d => rfl, ?_, ?_, ?_, ?_, ?_⟩
  · intro efields rest d m h
    simp [extract_error_details, Json.getD, h]
  · intro efields rest d h
    simp [extract_error_details, Json.getD, h]
  · intro efields exts rest d c h1 h2
    simp [extract_error_details, Json.getD, h1, h2]
  · intro efields exts rest d h1 h2
    simp [extract_error_details, Json.getD, h1, h2]
  · intro efields rest d h
    simp [extract_error_details, Json.getD, h]

theorem extract_error_details_first_entry_only_witness :
    (extract_error_details
      [Json.obj [("message", Json.str "boom"),
        ("extensions", Json.obj [("code", Json.str "X")])],
       Json.obj [("message", Json.str "later")]] "dflt").2 = Json.str "boom" :=
  extract_error_details_first_entry_only.2.2.1
    [("message", Json.str "boom"), ("extensions", Json.obj [("code", Json.str "X")])]
    [Json.obj [("message", Json.str "later")]] "dflt" (Json.str "boom") rfl

/-- C1 counterexample: for status 401, content type `application/json`, and
body the empty mapping, the classifier does not produce `InvalidLogin` with
the unauthorized sentinel; the empty errors array yields the unknown code,
which differs from the unauthorized sentinel. -/
theorem status401_empty_body_not_invalidLogin :
    extract_response_data
      ⟨401, "application/json", Except.ok (Json.obj []), "body"⟩ ≠
    Outcome.invalidLogin 401 (Json.str "request failed")
      (Json.str API_ERR_CODE_UNAUTH) := by
  intro h
  exact Outcome.noConfusion h

/-- C1 amended: for status 401, content type `application/json`, and body the
empty mapping, classification yields the generic `Fatal` outcome carrying
status 401, message "request failed", and the unknown-code sentinel. -/
theorem status401_empty_body_generic_fatal (co : String) :
    extract_response_data
      ⟨401, "application/json", Except.ok (Json.obj []), co⟩ =
    Outcome.fatal 401 (Json.str "request failed")
      (Json.str API_ERR_CODE_UNKNOWN) := rfl

/-- C5: for status 200, content type `application/json`, and a decoded body
mapping whose errors array is absent or empty, classification yields
`Success` with the full decoded mapping as payload. -/
theorem status200_no_errors_success (r : ClientResponse)
    (fields : List (String × Json))
    (hct : r.content_type = "application/json")
    (hbody : r.json = Except.ok (Json.obj fields))
    (hst : r.status = 200)
    (herr : fields.lookup "errors" = none ∨
      fields.lookup "errors" = some (Json.arr [])) :
    extract_response_data r = Outcome.success (Json.obj fields) := by
  obtain ⟨st, ct, bd, co⟩ := r
  dsimp only at hct hbody hst
  subst hct hbody hst
  have hre : responseErrors fields = [] := by
    rcases herr with h | h <;> simp [responseErrors, h]
  rw [extract_ok_obj, hre]
  simp [HTTPStatusOK]

theorem status200_no_errors_success_witness :
    extract_response_data
      ⟨200, "application/json",
        Except.ok (Json.obj [("data", Json.obj [("x", Json.num 1)])]), "body"⟩ =
      Outcome.success (Json.obj [("data", Json.obj [("x", Json.num 1)])]) :=
  status200_no_errors_success _ _ rfl rfl rfl (Or.inl rfl)

/-- C2: any response with JSON content type and a decoded mapping body whose
status lies in the retriable set classifies as `Retryable`, whatever error
code the errors array contains, because the retriable-set check runs before
the fatal-set check. -/
theorem retriable_status_always_retryable (r : ClientResponse)
    (fields : List (String × Json))
    (hct : r.content_type = "application/json")
    (hbody : r.json = Except.ok (Json.obj fields))
    (hst : r.status ∈ HTTP_CODES_RETRIABLE) :
    extract_response_data r =
      Outcome.retryable r.status
        (extract_error_details (responseErrors fields) r.content).2
        (extract_error_details (responseErrors fields) r.content).1 := by
  obtain ⟨st, ct, bd, co⟩ := r
  dsimp only at hct hbody hst ⊢
  subst hct hbody
  have h200 : st ≠ HTTPStatusOK := by
    simp only [HTTP_CODES_RETRIABLE, List.mem_cons, List.not_mem_nil, or_false] at hst
    rcases hst with rfl | rfl | rfl | rfl <;> decide
  rw [extract_ok_obj, if_neg h200, statusCodeBranches_retriable st co _ hst]

theorem retriable_status_always_retryable_witness :
    extract_response_data
      ⟨429, "application/json",
        Except.ok (Json.obj [("errors", Json.arr [Json.obj
          [("message", Json.str "rate limited"),
           ("extensions", Json.obj [("code", Json.str API_ERR_CODE_UNAUTH)])]])]),
        "body"⟩ =
      Outcome.retryable 429 (Json.str "rate limited")
        (Json.str API_ERR_CODE_UNAUTH) := by
  have h := retriable_status_always_retryable
    ⟨429, "application/json",
      Except.ok (Json.obj [("errors", Json.arr [Json.obj
        [("message", Json.str "rate limited"),
         ("extensions", Json.obj [("code", Json.str API_ERR_CODE_UNAUTH)])]])]),
      "body"⟩ _ rfl rfl (by decide)
  exact h

/-- C3: any response with JSON content type and a decoded mapping body whose
status lies in the fatal set (hence not 200 and not retriable) is classified
by the details extracted with default message "request failed": a code equal
to the unauthorized sentinel gives `InvalidLogin`, any other code the
generic `Fatal`. -/
theorem fatal_status_invalidLogin_or_fatal (r : ClientResponse)
    (fields : List (String × Json))
    (hct : r.content_type = "application/json")
    (hbody : r.json = Except.ok (Json.obj fields))
    (hst : r.status ∈ HTTP_CODES_FATAL) :
    extract_response_data r =
      (if (extract_error_details (responseErrors fields)
            "request failed").1.eqStr API_ERR_CODE_UNAUTH then
        Outcome.invalidLogin r.status
          (extract_error_details (responseErrors fields) "request failed").2
          (extract_error_details (responseErrors fields) "request failed").1
      else
        Outcome.fatal r.status
          (extract_error_details (responseErrors fields) "request failed").2
          (extract_error_details (responseErrors fields) "request failed").1) := by
  obtain ⟨st, ct, bd, co⟩ := r
  dsimp only at hct hbody hst ⊢
  subst hct hbody
  have h200 : st ≠ HTTPStatusOK := by
    simp only [HTTP_CODES_FATAL, List.mem_cons, List.not_mem_nil, or_false] at hst
    rcases hst with rfl | rfl | rfl | rfl <;> decide
  have hnr : st ∉ HTTP_CODES_RETRIABLE := by
    simp only [HTTP_CODES_FATAL, List.mem_cons, List.not_mem_nil, or_false] at hst
    rcases hst with rfl | rfl | rfl | rfl <;> decide
  rw [extract_ok_obj, if_neg h200, statusCodeBranches_fatal st co _ hnr hst]

theorem fatal_status_invalidLogin_or_fatal_witness :
    extract_response_data
      ⟨401, "application/json",
        Except.ok (Json.obj [("errors", Json.arr [Json.obj
          [("extensions", Json.obj [("code", Json.str API_ERR_CODE_UNAUTH)])]])]),
        "body"⟩ =
      Outcome.invalidLogin 401 (Json.str "request failed")
        (Json.str API_ERR_CODE_UNAUTH) := by
  have h := fatal_status_invalidLogin_or_fatal
    ⟨401, "application/json",
      Except.ok (Json.obj [("errors", Json.arr [Json.obj
        [("extensions", Json.obj [("code", Json.str API_ERR_CODE_UNAUTH)])]])]),
      "body"⟩ _ rfl rfl (by decide)
  exact h

/-- C6: for status 200, a decoded mapping body whose first error entry has
`extensions.code = "UNAUTHENTICATED"`, classification yields `InvalidLogin`
with status 200, that entry's message, and code `"UNAUTHENTICATED"`,
regardless of the message content. -/
theorem status200_unauthenticated_invalidLogin (r : ClientResponse)
    (fields efields exts : List (String × Json)) (rest : List Json)
    (msg : String)
    (hct : r.content_type = "application/json")
    (hbody : r.json = Except.ok (Json.obj fields))
    (hst : r.status = 200)
    (herrs : responseErrors fields = Json.obj efields :: rest)
    (hext : efields.lookup "extensions" = some (Json.obj exts))
    (hcode : exts.lookup "code" = some (Json.str "UNAUTHENTICATED"))
    (hmsg : efields.lookup "message" = some (Json.str msg)) :
    extract_response_data r =
      Outcome.invalidLogin 200 (Json.str msg) (Json.str "UNAUTHENTICATED") := by
  obtain ⟨st, ct, bd, co⟩ := r
  dsimp only at hct hbody hst
  subst hct hbody hst
  have hextract : extract_error_details (Json.obj efields :: rest) co =
      (Json.str "UNAUTHENTICATED", Json.str msg) := by
    simp [extract_error_details, Json.getD, hext, hcode, hmsg]
  rw [extract_ok_obj, if_pos (show 200 = HTTPStatusOK from rfl), herrs]
  simp [hextract, Json.eqStr]

theorem status200_unauthenticated_invalidLogin_witness :
    extract_response_data
      ⟨200, "application/json",
        Except.ok (Json.obj [("errors", Json.arr [Json.obj
          [("message", Json.str "no auth"),
           ("extensions", Json.obj [("code", Json.str "UNAUTHENTICATED")])]])]),
        "body"⟩ =
      Outcome.invalidLogin 200 (Json.str "no auth")
        (Json.str "UNAUTHENTICATED") := by
  have h := status200_unauthenticated_invalidLogin
    ⟨200, "application/json",
      Except.ok (Json.obj [("errors", Json.arr [Json.obj
        [("message", Json.str "no auth"),
         ("extensions", Json.obj [("code", Json.str "UNAUTHENTICATED")])]])]),
      "body"⟩
    [("errors", Json.arr [Json.obj
      [("message", Json.str "no auth"),
       ("extensions", Json.obj [("code", Json.str "UNAUTHENTICATED")])]])]
    [("message", Json.str "no auth"),
     ("extensions", Json.obj [("code", Json.str "UNAUTHENTICATED")])]
    [("code", Json.str "UNAUTHENTICATED")] [] "no auth"
    rfl rfl rfl rfl rfl rfl rfl
  exact h

/-- C7: for status 200 and a first error entry whose `extensions.code` is
`"INTERNAL_SERVER_ERROR"`, classification yields `NotForDemoUser` exactly
when the message contains the case-sensitive substring "demo user"; when the
substring is absent the outcome is never `NotForDemoUser`. -/
theorem status200_internal_error_demo_user (r : ClientResponse)
    (fields efields exts : List (String × Json)) (rest : List Json)
    (msg : String)
    (hct : r.content_type = "application/json")
    (hbody : r.json = Except.ok (Json.obj fields))
    (hst : r.status = 200)
    (herrs : responseErrors fields = Json.obj efields :: rest)
    (hext : efields.lookup "extensions" = some (Json.obj exts))
    (hcode : exts.lookup "code" = some (Json.str "INTERNAL_SERVER_ERROR"))
    (hmsg : efields.lookup "message" = some (Json.str msg)) :
    (strIn "demo user" msg = true →
      extract_response_data r =
        Outcome.notForDemoUser 200 (Json.str msg)
          (Json.str "INTERNAL_SERVER_ERROR")) ∧
    (strIn "demo user" msg = false →
      ∀ (s : Nat) (m c : Json),
        extract_response_data r ≠ Outcome.notForDemoUser s m c) := by
  obtain ⟨st, ct, bd, co⟩ := r
  dsimp only at hct hbody hst
  subst hct hbody hst
  have hextract : extract_error_details (Json.obj efields :: rest) co =
      (Json.str "INTERNAL_SERVER_ERROR", Json.str msg) := by
    simp [extract_error_details, Json.getD, hext, hcode, hmsg]
  have e1 : Json.eqStr (Json.str "INTERNAL_SERVER_ERROR") "UNAUTHENTICATED" = false := rfl
  have e2 : Json.eqStr (Json.str "INTERNAL_SERVER_ERROR") "INTERNAL_SERVER_ERROR" = true := rfl
  constructor
  · intro hdemo
    rw [extract_ok_obj, if_pos (show 200 = HTTPStatusOK from rfl), herrs]
    simp [hextract, e1, e2, Json.containsSub, hdemo]
  · intro hdemo s m c
    rw [extract_ok_obj, if_pos (show 200 = HTTPStatusOK from rfl), herrs]
    simp only [hextract, e1, e2, Json.containsSub, hdemo, List.isEmpty_cons,
      Bool.false_eq_true, if_false, Bool.true_and]
    exact statusCodeBranches_ne_notForDemoUser _ _ _ s m c

theorem status200_internal_error_demo_user_witness :
    (extract_response_data
      ⟨200, "application/json",
        Except.ok (Json.obj [("errors", Json.arr [Json.obj
          [("message", Json.str "not possible for demo user"),
           ("extensions", Json.obj [("code", Json.str "INTERNAL_SERVER_ERROR")])]])]),
        "body"⟩ =
      Outcome.notForDemoUser 200 (Json.str "not possible for demo user")
        (Json.str "INTERNAL_SERVER_ERROR")) ∧
    (extract_response_data
      ⟨200, "application/json",
        Except.ok (Json.obj [("errors", Json.arr [Json.obj
          [("message", Json.str "server exploded"),
           ("extensions", Json.obj [("code", Json.str "INTERNAL_SERVER_ERROR")])]])]),
        "body"⟩ ≠
      Outcome.notForDemoUser 200 (Json.str "server exploded")
        (Json.str "INTERNAL_SERVER_ERROR")) := by
  constructor
  · have h := status200_internal_error_demo_user
      ⟨200, "application/json",
        Except.ok (Json.obj [("errors", Json.arr [Json.obj
          [("message", Json.str "not possible for demo user"),
           ("extensions", Json.obj [("code", Json.str "INTERNAL_SERVER_ERROR")])]])]),
        "body"⟩
      [("errors", Json.arr [Json.obj
        [("message", Json.str "not possible for demo user"),
         ("extensions", Json.obj [("code", Json.str "INTERNAL_SERVER_ERROR")])]])]
      [("message", Json.str "not possible for demo user"),
       ("extensions", Json.obj [("code", Json.str "INTERNAL_SERVER_ERROR")])]
      [("code", Json.str "INTERNAL_SERVER_ERROR")] [] "not possible for demo user"
      rfl rfl rfl rfl rfl rfl rfl
    exact h.1 rfl
  · have h := status200_internal_error_demo_user
      ⟨200, "application/json",
        Except.ok (Json.obj [("errors", Json.arr [Json.obj
          [("message", Json.str "server exploded"),
           ("extensions", Json.obj [("code", Json.str "INTERNAL_SERVER_ERROR")])]])]),
        "body"⟩
      [("errors", Json.arr [Json.obj
        [("message", Json.str "server exploded"),
         ("extensions", Json.obj [("code", Json.str "INTERNAL_SERVER_ERROR")])]])]
      [("message", Json.str "server exploded"),
       ("extensions", Json.obj [("code", Json.str "INTERNAL_SERVER_ERROR")])]
      [("code", Json.str "INTERNAL_SERVER_ERROR")] [] "server exploded"
      rfl rfl rfl rfl rfl rfl rfl
    exact h.2 rfl 200 (Json.str "server exploded") (Json.str "INTERNAL_SERVER_ERROR")

/-- C8: the three pre-status gates each yield `Fatal` with the unknown-code
sentinel independently of the status code: a non-JSON content type is
rejected before any body inspection with a message naming the type, a body
that fails to decode gives a message embedding the parse error, and a body
decoding to a non-mapping gives a message embedding the decoded value; the
three diagnostic messages are mutually distinguishable. -/
theorem pre_status_gates_fatal :
    (∀ r : ClientResponse, r.content_type ≠ "application/json" →
      extract_response_data r =
        Outcome.fatal r.status
          (Json.str ("Unexpected content type: " ++ r.content_type))
          (Json.str API_ERR_CODE_UNKNOWN)) ∧
    (∀ (r : ClientResponse) (err : String),
      r.content_type = "application/json" → r.json = Except.error err →
      extract_response_data r =
        Outcome.fatal r.status
          (Json.str ("Failed to parse response: " ++ err))
          (Json.str API_ERR_CODE_UNKNOWN)) ∧
    (∀ (r : ClientResponse) (j : Json),
      r.content_type = "application/json" → r.json = Except.ok j →
      (∀ fields, j ≠ Json.obj fields) →
      extract_response_data r =
        Outcome.fatal r.status
          (Json.str ("Unexpected response: " ++ j.pyStr))
          (Json.str API_ERR_CODE_UNKNOWN)) ∧
    (∀ a b : String,
      "Unexpected content type: " ++ a ≠ "Failed to parse response: " ++ b ∧
      "Unexpected content type: " ++ a ≠ "Unexpected response: " ++ b ∧
      "Failed to parse response: " ++ a ≠ "Unexpected response: " ++ b) := by
  refine ⟨?_, ?_, ?_, ?_⟩
  · intro r h
    obtain ⟨st, ct, bd, co⟩ := r
    dsimp only at h ⊢
    unfold extract_response_data
    rw [if_pos h]
  · intro r err hct hj
    obtain ⟨st, ct, bd, co⟩ := r
    dsimp only at hct hj ⊢
    subst hct hj
    unfold extract_response_data
    rw [if_neg (by simp)]
  · intro r j hct hj hno
    obtain ⟨st, ct, bd, co⟩ := r
    dsimp only at hct hj ⊢
    subst hct hj
    unfold extract_response_data
    rw [if_neg (by simp)]
    cases j with
    | obj fields => exact absurd rfl (hno fields)
    | null => rfl
    | bool b => rfl
    | num n => rfl
    | str s => rfl
    | arr xs => rfl
  · intro a b
    refine ⟨?_, ?_, ?_⟩
    · exact string_append_ne_of_incomparable _ _ (by decide) (by decide) a b
    · exact string_append_ne_of_incomparable _ _ (by decide) (by decide) a b
    · exact string_append_ne_of_incomparable _ _ (by decide) (by decide) a b

theorem pre_status_gates_fatal_witness :
    (extract_response_data ⟨500, "text/html", Except.ok Json.null, "b"⟩ =
      Outcome.fatal 500 (Json.str "Unexpected content type: text/html")
        (Json.str API_ERR_CODE_UNKNOWN)) ∧
    (extract_response_data
      ⟨200, "application/json", Except.error "Expecting value: line 1 column 1 (char 0)", "b"⟩ =
      Outcome.fatal 200
        (Json.str "Failed to parse response: Expecting value: line 1 column 1 (char 0)")
        (Json.str API_ERR_CODE_UNKNOWN)) ∧
    (extract_response_data
      ⟨200, "application/json", Except.ok (Json.arr [Json.num 1, Json.num 2]), "b"⟩ =
      Outcome.fatal 200 (Json.str "Unexpected response: [1, 2]")
        (Json.str API_ERR_CODE_UNKNOWN)) := by
  refine ⟨?_, ?_, ?_⟩
  · exact pre_status_gates_fatal.1 ⟨500, "text/html", Except.ok Json.null, "b"⟩ (by decide)
  · exact pre_status_gates_fatal.2.1
      ⟨200, "application/json", Except.error "Expecting value: line 1 column 1 (char 0)", "b"⟩
      "Expecting value: line 1 column 1 (char 0)" rfl rfl
  · exact pre_status_gates_fatal.2.2.1
      ⟨200, "application/json", Except.ok (Json.arr [Json.num 1, Json.num 2]), "b"⟩
      (Json.arr [Json.num 1, Json.num 2]) rfl rfl
      (fun fields h => Json.noConfusion h)

/-- C9: a status outside the OK, retriable, and fatal sets reaches the final
fallback and yields `Fatal` with message prefixed "Unhandled error: ", the
extracted message defaulting to "N/A" on an empty errors array; a 200
response whose errors escape every OK-path branch reaches the same fallback. -/
theorem unhandled_status_fatal (r : ClientResponse)
    (fields : List (String × Json))
    (hct : r.content_type = "application/json")
    (hbody : r.json = Except.ok (Json.obj fields)) :
    (r.status ∉ HTTP_CODES_RETRIABLE → r.status ∉ HTTP_CODES_FATAL →
      r.status ≠ 200 →
      extract_response_data r =
        Outcome.fatal r.status
          (Json.str ("Unhandled error: " ++
            (extract_error_details (responseErrors fields) "N/A").2.pyStr))
          (extract_error_details (responseErrors fields) "N/A").1) ∧
    (r.status ∉ HTTP_CODES_RETRIABLE → r.status ∉ HTTP_CODES_FATAL →
      r.status ≠ 200 → responseErrors fields = [] →
      extract_response_data r =
        Outcome.fatal r.status (Json.str "Unhandled error: N/A")
          (Json.str API_ERR_CODE_UNKNOWN)) ∧
    (r.status = 200 →
      (extract_error_details (responseErrors fields) r.content).1.eqStr
        "UNAUTHENTICATED" = false →
      ((extract_error_details (responseErrors fields) r.content).1.eqStr
          "INTERNAL_SERVER_ERROR"
        && (extract_error_details (responseErrors fields) r.content).2.containsSub
          "demo user") = false →
      responseErrors fields ≠ [] →
      extract_response_data r =
        Outcome.fatal r.status
          (Json.str ("Unhandled error: " ++
            (extract_error_details (responseErrors fields) "N/A").2.pyStr))
          (extract_error_details (responseErrors fields) "N/A").1) := by
  obtain ⟨st, ct, bd, co⟩ := r
  dsimp only at hct hbody ⊢
  subst hct hbody
  refine ⟨?_, ?_, ?_⟩
  · intro h1 h2 h3
    rw [extract_ok_obj, if_neg (show st ≠ HTTPStatusOK from h3),
      statusCodeBranches_unhandled st co _ h1 h2]
  · intro h1 h2 h3 h4
    rw [extract_ok_obj, if_neg (show st ≠ HTTPStatusOK from h3),
      statusCodeBranches_unhandled st co _ h1 h2, h4]
    rfl
  · intro h200 hu hd hne
    subst h200
    cases hre : responseErrors fields with
    | nil => exact absurd hre hne
    | cons e es =>
      rw [hre] at hu hd
      rw [extract_ok_obj, if_pos (show 200 = HTTPStatusOK from rfl), hre]
      simp only [List.isEmpty_cons, Bool.false_eq_true, if_false, hu, hd]
      exact statusCodeBranches_unhandled 200 co _ (by decide) (by decide)

theorem unhandled_status_fatal_witness :
    extract_response_data ⟨418, "application/json", Except.ok (Json.obj []), "b"⟩ =
      Outcome.fatal 418 (Json.str "Unhandled error: N/A")
        (Json.str API_ERR_CODE_UNKNOWN) :=
  (unhandled_status_fatal ⟨418, "application/json", Except.ok (Json.obj []), "b"⟩
    [] rfl rfl).2.1 (by decide) (by decide) (by decide) rfl

theorem extract_statusOf (r : ClientResponse) :
    (extract_response_data r).statusOf = none ∨
    (extract_response_data r).statusOf = some r.status := by
  obtain ⟨st, ct, bd, co⟩ := r
  dsimp only
  by_cases hct : ct = "application/json"
  · subst hct
    cases bd with
    | error e =>
      unfold extract_response_data
      rw [if_neg (by simp)]
      right; rfl
    | ok j =>
      cases j with
      | obj fields =>
        rw [extract_ok_obj]
        by_cases h200 : st = HTTPStatusOK
        · rw [if_pos h200]
          by_cases hemp : (responseErrors fields).isEmpty
          · rw [if_pos hemp]; left; rfl
          · rw [if_neg hemp]
            split_ifs with h1 h2
            · right; rfl
            · right; rfl
            · right; exact statusCodeBranches_statusOf st co _
        · rw [if_neg h200]
          right; exact statusCodeBranches_statusOf st co _
      | null =>
        unfold extract_response_data
        rw [if_neg (by simp)]
        right; rfl
      | bool b =>
        unfold extract_response_data
        rw [if_neg (by simp)]
        right; rfl
      | num n =>
        unfold extract_response_data
        rw [if_neg (by simp)]
        right; rfl
      | str s =>
        unfold extract_response_data
        rw [if_neg (by simp)]
        right; rfl
      | arr xs =>
        unfold extract_response_data
        rw [if_neg (by simp)]
        right; rfl
  · unfold extract_response_data
    rw [if_pos hct]
    right; rfl

/-- C10: every failure outcome produced by the classifier carries the status
code of the response it was given; only `Success` carries no status. -/
theorem failure_status_preserved (r : ClientResponse) :
    (∀ (s : Nat) (m c : Json),
      extract_response_data r = Outcome.invalidLogin s m c → s = r.status) ∧
    (∀ (s : Nat) (m c : Json),
      extract_response_data r = Outcome.notForDemoUser s m c → s = r.status) ∧
    (∀ (s : Nat) (m c : Json),
      extract_response_data r = Outcome.retryable s m c → s = r.status) ∧
    (∀ (s : Nat) (m c : Json),
      extract_response_data r = Outcome.fatal s m c → s = r.status) := by
  have key := extract_statusOf r
  refine ⟨?_, ?_, ?_, ?_⟩ <;> intro s m c h <;> rw [h] at key <;>
    rcases key with k | k
  · simp [Outcome.statusOf] at k
  · simpa [Outcome.statusOf] using k
  · simp [Outcome.statusOf] at k
  · simpa [Outcome.statusOf] using k
  · simp [Outcome.statusOf] at k
  · simpa [Outcome.statusOf] using k
  · simp [Outcome.statusOf] at k
  · simpa [Outcome.statusOf] using k

theorem failure_status_preserved_witness : (418 : Nat) = 418 := by
  have h := failure_status_preserved
    ⟨418, "application/json", Except.ok (Json.obj []), "b"⟩
  exact h.2.2.2 418 (Json.str "Unhandled error: N/A")
    (Json.str API_ERR_CODE_UNKNOWN) rfl
